import Mathlib

/-!
Shallow embedding of `usbCamera.py` (class `USBCamera`): the camera session
lifecycle (open, preview, capture, release) with its state, logging and error
behaviour, together with theorems settling the specification claims.

External collaborators (the cv2 device layer, the wall clock, key input) are
modelled as explicit environment records of pure functions; each Python method
becomes a Lean function from an environment and a session state to the new
state plus an observation trace (files written, log events, reads performed,
exception raised, ...).
-/

/-- A cv2 `VideoCapture` handle as the session sees it: whether `isOpened()`
reports true, and the device's current (effective) frame width, height and
frame rate, readable back via `camera.get(...)`. -/
structure CamHandle where
  opened : Bool
  width : Nat
  height : Nat
  fps : Nat
deriving DecidableEq, Repr

/-- An opaque captured frame buffer (`frame` returned by `camera.read()`). -/
abbrev Frame := Nat

/-- Python-level exceptions that can escape or be caught in this program:
`AttributeError` from calling a method on `None`, and `SystemExit` from
`sys.exit(code)`. -/
inductive PyError where
  | attributeError : PyError
  | systemExit : Nat → PyError
deriving DecidableEq, Repr

/-- The `USBCamera` object state: `__init__` stores `device_index`,
`frame_resolution`, `frame_rate` and sets `self.camera = None`
(lines 87-90 of `usbCamera.py`). -/
structure USBCamera where
  device_index : Nat
  frame_resolution : Nat × Nat
  frame_rate : Nat
  camera : Option CamHandle
deriving DecidableEq, Repr

/-- `USBCamera.__init__(device_index, frame_resolution, frame_rate)`. -/
def USBCamera.init (device_index : Nat) (frame_resolution : Nat × Nat)
    (frame_rate : Nat) : USBCamera :=
  { device_index := device_index
    frame_resolution := frame_resolution
    frame_rate := frame_rate
    camera := none }

/-- Device-layer environment seen by `open_camera`:
`acquire` is the outcome of `cv2.VideoCapture(self.device_index)`
(`none` models the constructor raising an exception, `some h` a returned
handle, opened or not); `reopen` is the effect of the `self.camera.open(...)`
call made when the handle is not opened; `negotiate` is the combined effect of
the four `camera.set(...)` calls — the device is free to ignore the requested
resolution / frame rate and substitute its own effective values. -/
structure OpenEnv where
  acquire : Option CamHandle
  reopen : CamHandle → CamHandle
  negotiate : CamHandle → Nat × Nat → Nat → CamHandle

/-- Observation trace of one `open_camera` call: how many device-acquisition
attempts were made (the `cv2.VideoCapture` constructor call, plus the
`camera.open` retry when the first handle is not opened), how many
`logging.error` / `logging.info` events were emitted, and the exception
propagated to the caller (always `none`: the body is wrapped in
`try/except Exception`). -/
structure OpenTrace where
  acquireAttempts : Nat
  errorsLogged : Nat
  infoLogged : Nat
  raised : Option PyError
deriving DecidableEq, Repr

/-- `USBCamera.open_camera` (lines 92-114): assign
`self.camera = cv2.VideoCapture(self.device_index)`; if the handle is not
opened, retry with `self.camera.open(self.device_index)`; sleep; apply the
requested resolution, frame rate and autofocus via `camera.set` (the device
negotiates effective values); log an info message.  Any exception is caught
and logged as an error; nothing is ever raised to the caller and no
`DeviceOpenFailed`-style result is returned. -/
def open_camera (env : OpenEnv) (s : USBCamera) : USBCamera × OpenTrace :=
  match env.acquire with
  | none =>
      -- `cv2.VideoCapture` raised: `self.camera` was never assigned, the
      -- `except` branch logs the error and the method returns normally.
      (s, { acquireAttempts := 1, errorsLogged := 1, infoLogged := 0, raised := none })
  | some h0 =>
      if h0.opened then
        ({ s with camera := some (env.negotiate h0 s.frame_resolution s.frame_rate) },
         { acquireAttempts := 1, errorsLogged := 0, infoLogged := 1, raised := none })
      else
        -- `not self.camera.isOpened()`: one automatic `self.camera.open(...)` retry.
        ({ s with camera := some (env.negotiate (env.reopen h0)
            s.frame_resolution s.frame_rate) },
         { acquireAttempts := 2, errorsLogged := 0, infoLogged := 1, raised := none })

/-- `USBCamera.release_camera` (lines 197-201): `if self.camera:` release the
underlying handle and log.  The `self.camera` attribute is **not** cleared and
no separate session state is recorded.  With `self.camera = None` the guard
fails and the method is a silent no-op.  Nothing can be raised. -/
def release_camera (s : USBCamera) : USBCamera :=
  match s.camera with
  | none => s
  | some h => { s with camera := some { h with opened := false } }

/-- `USBCamera.__del__` (lines 203-205): teardown just calls
`self.release_camera()`. -/
def del_camera (s : USBCamera) : USBCamera :=
  release_camera s

/-! ### Wall clock and `time.strftime("%Y%m%d_%H%M%S")`

`take_picture` names its output file with
`time.strftime("%Y%m%d_%H%M%S")` (line 172), the operating system's
broken-down local time at seconds resolution.  We model the OS clock as a
count of seconds `t : Nat` and its civil decomposition by the standard
Gregorian rules (epoch 1970-01-01 00:00:00), then render the format string
digit by digit. -/

/-- Gregorian leap-year rule. -/
def isLeap (y : Nat) : Bool :=
  (y % 4 == 0 && y % 100 != 0) || (y % 400 == 0)

/-- Number of days in civil year `y`. -/
def daysInYear (y : Nat) : Nat :=
  if isLeap y then 366 else 365

/-- Walk forward from year `y`, consuming whole years from a day count, and
return the civil year together with the remaining day-of-year (0-based).
`fuel` bounds the recursion; every caller supplies enough. -/
def civilYear : Nat → Nat → Nat → Nat × Nat
  | 0, y, days => (y, days)
  | fuel + 1, y, days =>
      if days < daysInYear y then (y, days)
      else civilYear fuel (y + 1) (days - daysInYear y)

/-- Total number of days in the `n` consecutive civil years starting at `y`. -/
def daysFrom (y : Nat) : Nat → Nat
  | 0 => 0
  | n + 1 => daysInYear y + daysFrom (y + 1) n

/-- Month lengths (January first) for a common or leap year. -/
def monthLengths (leap : Bool) : List Nat :=
  [31, if leap then 29 else 28, 31, 30, 31, 30, 31, 31, 30, 31, 30, 31]

/-- Helper for `monthDay`: consume month lengths from a 0-based day-of-year,
returning the 1-based month and day-of-month. -/
def monthDayGo (m d : Nat) : List Nat → Nat × Nat
  | [] => (m, d + 1)
  | len :: rest => if d < len then (m, d + 1) else monthDayGo (m + 1) (d - len) rest

/-- 1-based (month, day) of a 0-based day-of-year. -/
def monthDay (leap : Bool) (d : Nat) : Nat × Nat :=
  monthDayGo 1 d (monthLengths leap)

/-- Day-of-year (0-based) at which month `m` (1-based) starts. -/
def monthStart (leap : Bool) (m : Nat) : Nat :=
  ((monthLengths leap).take (m - 1)).sum

/-- Recover the 0-based day-of-year from a 1-based (month, day) pair:
the left inverse of `monthDay`. -/
def monthDayInv (leap : Bool) (md : Nat × Nat) : Nat :=
  monthStart leap md.1 + md.2 - 1

/-- Broken-down time as consumed by `strftime` (Python `time.struct_time`,
restricted to the fields the format string uses). -/
structure Tm where
  tm_year : Nat
  tm_mon : Nat
  tm_mday : Nat
  tm_hour : Nat
  tm_min : Nat
  tm_sec : Nat
deriving DecidableEq, Repr

/-- The OS clock decomposition `time.localtime`: seconds since the epoch to
broken-down civil time (Gregorian calendar, epoch year 1970). -/
def localtime (t : Nat) : Tm :=
  let days := t / 86400
  let yd := civilYear (days + 1) 1970 days
  let md := monthDay (isLeap yd.1) yd.2
  { tm_year := yd.1
    tm_mon := md.1
    tm_mday := md.2
    tm_hour := t / 3600 % 24
    tm_min := t / 60 % 60
    tm_sec := t % 60 }

/-- The two decimal digits of `n % 100`, zero-padded. -/
def two_digits (n : Nat) : List Char :=
  [Nat.digitChar (n / 10 % 10), Nat.digitChar (n % 10)]

/-- The four decimal digits of `n % 10000`, zero-padded. -/
def four_digits (n : Nat) : List Char :=
  two_digits (n / 100 % 100) ++ two_digits (n % 100)

/-- `time.strftime("%Y%m%d_%H%M%S", tm)`. -/
def strftimeYmdHMS (tm : Tm) : String :=
  String.mk (four_digits tm.tm_year ++ two_digits tm.tm_mon ++
    two_digits tm.tm_mday ++ [Char.ofNat 95] ++ two_digits tm.tm_hour ++
    two_digits tm.tm_min ++ two_digits tm.tm_sec)

/-- `now_time = time.strftime("%Y%m%d_%H%M%S")` at clock reading `t`. -/
def now_time_str (t : Nat) : String :=
  strftimeYmdHMS (localtime t)

/-- The output path built at lines 172-173:
`os.path.join(save_path, f"{...}_{...}_{...}.jpg")` with the label, the
seconds-resolution timestamp and the counter. -/
def mkFilename (save_path test_case_name count : String) (t : Nat) : String :=
  save_path ++ "/" ++ test_case_name ++ "_" ++ now_time_str t ++ "_" ++ count ++ ".jpg"

/-! ### `take_picture` -/

/-- Environment for one `take_picture` call: the device layer used by a
possible implicit `open_camera`, the outcome of `camera.read()` on a given
handle (`none` models `ret == False`), and the wall-clock reading consumed by
`time.strftime`. -/
structure CapEnv where
  openEnv : OpenEnv
  read : CamHandle → Option Frame
  now : Nat

/-- Observation trace of one `take_picture` call: number of implicit
`open_camera()` calls, number of `camera.read()` calls, files written by
`cv2.imwrite(filename, frame, [IMWRITE_JPEG_QUALITY, 95])` as
(path, quality) pairs, files rewritten by `add_pic_mark`, log-event counts,
and the exception propagated to the caller (always `none`: the read/save code
sits in `try/except Exception` and the open branch cannot raise). -/
structure PicTrace where
  openAttempts : Nat
  reads : Nat
  files : List (String × Nat)
  markWrites : List String
  warnings : Nat
  errorsLogged : Nat
  infoLogged : Nat
  raised : Option PyError
deriving DecidableEq, Repr

/-- The test at line 164:
`self.camera is None or not self.camera.isOpened()`. -/
def cameraNotReady (s : USBCamera) : Bool :=
  match s.camera with
  | none => true
  | some h => !h.opened

/-- The `try:` block of `take_picture` (lines 168-181), entered with the
session state after the optional implicit open and the log/attempt counters
`oa`/`w0`/`e0`/`i0` accumulated so far: read one frame; on success build the
timestamped filename and write the frame with JPEG quality 95 (optionally
re-writing it with a watermark when `pic_mark`); on `ret == False` log a
warning and write nothing.  Reading on a still-`None` camera raises
`AttributeError`, which the `except` branch catches and logs as an error.
Nothing is raised to the caller in any branch. -/
def tpBody (env : CapEnv) (s1 : USBCamera)
    (save_path test_case_name count : String) (pic_mark : Bool)
    (oa w0 e0 i0 : Nat) : USBCamera × PicTrace :=
  match s1.camera with
  | none =>
      -- `self.camera.read()` on `None`: AttributeError, caught at line 180.
      (s1, { openAttempts := oa, reads := 0, files := [], markWrites := []
             warnings := w0, errorsLogged := e0 + 1, infoLogged := i0, raised := none })
  | some h =>
      match env.read h with
      | some _frame =>
          (s1, { openAttempts := oa, reads := 1
                 files := [(mkFilename save_path test_case_name count env.now, 95)]
                 markWrites := if pic_mark
                   then [mkFilename save_path test_case_name count env.now] else []
                 warnings := w0, errorsLogged := e0, infoLogged := i0 + 1
                 raised := none })
      | none =>
          (s1, { openAttempts := oa, reads := 1, files := [], markWrites := []
                 warnings := w0 + 1, errorsLogged := e0, infoLogged := i0
                 raised := none })

/-- `USBCamera.take_picture` (lines 155-181).
If `self.camera is None or not self.camera.isOpened()`: warn and attempt one
implicit `self.open_camera()` (lines 164-166), then run the `try:` block
(`tpBody`) on the resulting state. -/
def take_picture (env : CapEnv) (s : USBCamera)
    (save_path test_case_name count : String) (pic_mark : Bool) :
    USBCamera × PicTrace :=
  if cameraNotReady s then
    -- lines 165-166: warn, then one implicit `self.open_camera()`.
    tpBody env (open_camera env.openEnv s).1 save_path test_case_name count pic_mark
      1 1 (open_camera env.openEnv s).2.errorsLogged (open_camera env.openEnv s).2.infoLogged
  else
    tpBody env s save_path test_case_name count pic_mark 0 0 0 0

/-! ### `show_live_camera` -/

/-- Environment for one `show_live_camera` call, indexed by loop iteration:
`elapsed i` is `time.time() - start_time` observed at iteration `i`
(in the same unit as `timeout`), `frames i` is the outcome of the
`camera.read()` at iteration `i`, and `keys i` is the key code returned by
`cv2.waitKey(1)` there (`none` for no key). -/
structure PrevEnv where
  elapsed : Nat → Nat
  frames : Nat → Option Frame
  keys : Nat → Option Nat

/-- Key code of the cancel key: `ord('q')`. -/
def qKey : Nat := 113

/-- The exit test at line 150: `cv2.waitKey(1) == ord('q') or
elapsed_time > timeout`, as observed at iteration `i`. -/
def exitCond (env : PrevEnv) (timeout i : Nat) : Prop :=
  env.keys i = some qKey ∨ env.elapsed i > timeout

instance (env : PrevEnv) (timeout i : Nat) : Decidable (exitCond env timeout i) := by
  unfold exitCond; infer_instance

/-- Result of the `while True` loop of lines 126-151, starting at iteration
`i`: `fail r n` is the `ret == False` path (release the handle, log an error,
`sys.exit(1)`) after `r` reads and `n` iterations in total;
`brk r n` is the `break` at line 151; `fuelOut` is never reached when the
fuel exceeds the exit iteration. -/
inductive LoopOut where
  | fail : Nat → Nat → LoopOut
  | brk : Nat → Nat → LoopOut
  | fuelOut : LoopOut
deriving DecidableEq, Repr

/-- One pass of the preview loop body per iteration: compute the countdown
from `elapsed i`, `camera.read()` — on failure release/log/`sys.exit(1)` —
otherwise overlay the four text lines, `imshow`, and test the exit condition.
Iteration count and read count are both `i + 1` on exit at iteration `i`. -/
def previewLoop (env : PrevEnv) (timeout : Nat) : Nat → Nat → LoopOut
  | 0, _ => .fuelOut
  | fuel + 1, i =>
      match env.frames i with
      | none => .fail (i + 1) (i + 1)
      | some _ =>
          if exitCond env timeout i then .brk (i + 1) (i + 1)
          else previewLoop env timeout fuel (i + 1)

/-- Observation trace of one `show_live_camera` call: the effective camera
info `(width, height, fps)` read back from the device at lines 121-123 and
used both by the `print` at line 124 and by the `cv2.putText` overlay at
lines 142-143 (`none` when execution never got there); reads performed;
iterations run; whether `self.camera.release()` was called; whether
`cv2.destroyAllWindows()` ran; and the exception escaping the call
(`AttributeError` when `self.camera` is `None`, `SystemExit 1` on the
read-failure path). -/
structure PrevTrace where
  actualInfo : Option (Nat × Nat × Nat)
  reads : Nat
  iterations : Nat
  camReleased : Bool
  windowsDestroyed : Bool
  raised : Option PyError
deriving DecidableEq, Repr

/-- `USBCamera.show_live_camera` (lines 116-153).  The method dereferences
`self.camera` immediately (line 121) with no `None` check and no implicit
open; with an unopened session this raises `AttributeError`.  Otherwise it
re-reads the effective width/height/fps from the device, runs the preview
loop, and on `break` destroys the display windows; on a failed read it
releases the handle, logs an error and calls `sys.exit(1)` (so the window
cleanup at line 152 is skipped). -/
def show_live_camera (env : PrevEnv) (s : USBCamera) (timeout fuel : Nat) :
    USBCamera × PrevTrace :=
  match s.camera with
  | none =>
      (s, { actualInfo := none, reads := 0, iterations := 0
            camReleased := false, windowsDestroyed := false
            raised := some .attributeError })
  | some h =>
      let info := (h.width, h.height, h.fps)
      match previewLoop env timeout fuel 0 with
      | .fail r n =>
          ({ s with camera := some { h with opened := false } },
           { actualInfo := some info, reads := r, iterations := n
             camReleased := true, windowsDestroyed := false
             raised := some (.systemExit 1) })
      | .brk r n =>
          (s, { actualInfo := some info, reads := r, iterations := n
                camReleased := false, windowsDestroyed := true
                raised := none })
      | .fuelOut =>
          (s, { actualInfo := some info, reads := 0, iterations := 0
                camReleased := false, windowsDestroyed := false
                raised := none })

/-! ### Supporting lemmas: the calendar decomposition is injective -/

theorem daysInYear_ge (y : Nat) : 365 ≤ daysInYear y := by
  unfold daysInYear; split <;> omega

/-- `civilYear` with enough fuel lands in a real calendar cell: the result
year is at least the start year, the day-of-year is inside the result year,
and the input day count decomposes as whole years plus the day-of-year. -/
theorem civilYear_spec (fuel : Nat) : ∀ y days, days ≤ 365 * fuel + 364 →
    y ≤ (civilYear fuel y days).1 ∧
    days = daysFrom y ((civilYear fuel y days).1 - y) + (civilYear fuel y days).2 ∧
    (civilYear fuel y days).2 < daysInYear (civilYear fuel y days).1 := by
  induction fuel with
  | zero =>
      intro y days hdays
      have := daysInYear_ge y
      simp only [civilYear, Nat.sub_self, daysFrom]
      omega
  | succ fuel ih =>
      intro y days hdays
      have hge := daysInYear_ge y
      by_cases hlt : days < daysInYear y
      · simp only [civilYear, if_pos hlt, Nat.sub_self, daysFrom]
        omega
      · have hrec : days - daysInYear y ≤ 365 * fuel + 364 := by omega
        obtain ⟨h1, h2, h3⟩ := ih (y + 1) (days - daysInYear y) hrec
        simp only [civilYear, if_neg hlt]
        refine ⟨by omega, ?_, h3⟩
        have hsub : (civilYear fuel (y + 1) (days - daysInYear y)).1 - y =
            ((civilYear fuel (y + 1) (days - daysInYear y)).1 - (y + 1)) + 1 := by
          omega
        rw [hsub]
        simp only [daysFrom]
        omega

theorem daysFrom_ge (n : Nat) : ∀ y, 365 * n ≤ daysFrom y n := by
  induction n with
  | zero => intro y; simp [daysFrom]
  | succ n ih =>
      intro y
      have h1 := daysInYear_ge y
      have h2 := ih (y + 1)
      simp only [daysFrom]
      omega

set_option maxRecDepth 100000 in
/-- `monthDay` stays in calendar range and is undone by `monthDayInv`, for
every day-of-year inside the year. -/
theorem monthDay_spec : ∀ (leap : Bool) (d : Nat), d < (if leap then 366 else 365) →
    monthDayInv leap (monthDay leap d) = d ∧
    1 ≤ (monthDay leap d).1 ∧ (monthDay leap d).1 ≤ 12 ∧
    1 ≤ (monthDay leap d).2 ∧ (monthDay leap d).2 ≤ 31 := by decide

/-- `Nat.digitChar` distinguishes decimal digits. -/
theorem digitChar_inj : ∀ a, a < 10 → ∀ b, b < 10 →
    Nat.digitChar a = Nat.digitChar b → a = b := by decide

/-- The seconds-resolution clock decomposition loses nothing: two instants
with the same broken-down time are the same instant. -/
theorem localtime_inj (t1 t2 : Nat) (h : localtime t1 = localtime t2) : t1 = t2 := by
  obtain ⟨s11, s12, s13⟩ := civilYear_spec (t1 / 86400 + 1) 1970 (t1 / 86400) (by omega)
  obtain ⟨s21, s22, s23⟩ := civilYear_spec (t2 / 86400 + 1) 1970 (t2 / 86400) (by omega)
  simp only [localtime, Tm.mk.injEq] at h
  obtain ⟨hY, hmon, hmday, hhour, hmin, hsec⟩ := h
  rw [hY] at s11 s12 s13
  have hb1 : (civilYear (t1 / 86400 + 1) 1970 (t1 / 86400)).2 <
      (if isLeap (civilYear (t2 / 86400 + 1) 1970 (t2 / 86400)).1 then 366 else 365) := by
    simpa [daysInYear] using s13
  have hb2 : (civilYear (t2 / 86400 + 1) 1970 (t2 / 86400)).2 <
      (if isLeap (civilYear (t2 / 86400 + 1) 1970 (t2 / 86400)).1 then 366 else 365) := by
    simpa [daysInYear] using s23
  obtain ⟨hinv1, _⟩ := monthDay_spec _ _ hb1
  obtain ⟨hinv2, _⟩ := monthDay_spec _ _ hb2
  have hmd : monthDay (isLeap (civilYear (t2 / 86400 + 1) 1970 (t2 / 86400)).1)
        (civilYear (t1 / 86400 + 1) 1970 (t1 / 86400)).2 =
      monthDay (isLeap (civilYear (t2 / 86400 + 1) 1970 (t2 / 86400)).1)
        (civilYear (t2 / 86400 + 1) 1970 (t2 / 86400)).2 := by
    rw [hY] at hmon hmday
    exact Prod.ext hmon hmday
  have hd : (civilYear (t1 / 86400 + 1) 1970 (t1 / 86400)).2 =
      (civilYear (t2 / 86400 + 1) 1970 (t2 / 86400)).2 := by
    rw [← hinv1, ← hinv2, hmd]
  omega

/-- `localtime` of a pre-year-10000 instant has the field bounds the
format string needs. -/
theorem localtime_bounds (t : Nat) (ht : t < 253234080000) :
    (localtime t).tm_year < 10000 ∧ (localtime t).tm_mon < 100 ∧
    (localtime t).tm_mday < 100 ∧ (localtime t).tm_hour < 100 ∧
    (localtime t).tm_min < 100 ∧ (localtime t).tm_sec < 100 := by
  obtain ⟨s1, s2, s3⟩ := civilYear_spec (t / 86400 + 1) 1970 (t / 86400) (by omega)
  have hb : (civilYear (t / 86400 + 1) 1970 (t / 86400)).2 <
      (if isLeap (civilYear (t / 86400 + 1) 1970 (t / 86400)).1 then 366 else 365) := by
    simpa [daysInYear] using s3
  obtain ⟨_, hm1, hm2, hd1, hd2⟩ := monthDay_spec _ _ hb
  have hyear : (civilYear (t / 86400 + 1) 1970 (t / 86400)).1 < 10000 := by
    by_contra hge
    have hlow := daysFrom_ge ((civilYear (t / 86400 + 1) 1970 (t / 86400)).1 - 1970) 1970
    omega
  simp only [localtime]
  refine ⟨hyear, by omega, by omega, by omega, by omega, by omega⟩

/-- Strings with the same character data are equal. -/
theorem string_data_inj {a b : String} (h : a.data = b.data) : a = b := by
  cases a
  cases b
  exact congrArg String.mk h

/-- The rendered format string determines the broken-down time, for fields in
the ranges the format supports (4-digit year, 2-digit fields). -/
theorem strftimeYmdHMS_inj (a b : Tm)
    (ha : a.tm_year < 10000 ∧ a.tm_mon < 100 ∧ a.tm_mday < 100 ∧
      a.tm_hour < 100 ∧ a.tm_min < 100 ∧ a.tm_sec < 100)
    (hb : b.tm_year < 10000 ∧ b.tm_mon < 100 ∧ b.tm_mday < 100 ∧
      b.tm_hour < 100 ∧ b.tm_min < 100 ∧ b.tm_sec < 100)
    (h : strftimeYmdHMS a = strftimeYmdHMS b) : a = b := by
  obtain ⟨y1, mo1, d1, hr1, mi1, s1⟩ := a
  obtain ⟨y2, mo2, d2, hr2, mi2, s2⟩ := b
  obtain ⟨ha1, ha2, ha3, ha4, ha5, ha6⟩ := ha
  obtain ⟨hb1, hb2, hb3, hb4, hb5, hb6⟩ := hb
  have hy1 : y1 < 10000 := ha1
  have hmo1 : mo1 < 100 := ha2
  have hd1 : d1 < 100 := ha3
  have hhr1 : hr1 < 100 := ha4
  have hmi1 : mi1 < 100 := ha5
  have hs1 : s1 < 100 := ha6
  have hy2 : y2 < 10000 := hb1
  have hmo2 : mo2 < 100 := hb2
  have hd2 : d2 < 100 := hb3
  have hhr2 : hr2 < 100 := hb4
  have hmi2 : mi2 < 100 := hb5
  have hs2 : s2 < 100 := hb6
  simp only [strftimeYmdHMS] at h
  injection h with h
  simp only [four_digits, two_digits, List.cons_append, List.nil_append,
    List.cons.injEq, and_true] at h
  obtain ⟨c1, c2, c3, c4, c5, c6, c7, c8, _, c9, c10, c11, c12, c13, c14⟩ := h
  have e1 := digitChar_inj _ (Nat.mod_lt _ (by omega)) _ (Nat.mod_lt _ (by omega)) c1
  have e2 := digitChar_inj _ (Nat.mod_lt _ (by omega)) _ (Nat.mod_lt _ (by omega)) c2
  have e3 := digitChar_inj _ (Nat.mod_lt _ (by omega)) _ (Nat.mod_lt _ (by omega)) c3
  have e4 := digitChar_inj _ (Nat.mod_lt _ (by omega)) _ (Nat.mod_lt _ (by omega)) c4
  have e5 := digitChar_inj _ (Nat.mod_lt _ (by omega)) _ (Nat.mod_lt _ (by omega)) c5
  have e6 := digitChar_inj _ (Nat.mod_lt _ (by omega)) _ (Nat.mod_lt _ (by omega)) c6
  have e7 := digitChar_inj _ (Nat.mod_lt _ (by omega)) _ (Nat.mod_lt _ (by omega)) c7
  have e8 := digitChar_inj _ (Nat.mod_lt _ (by omega)) _ (Nat.mod_lt _ (by omega)) c8
  have e9 := digitChar_inj _ (Nat.mod_lt _ (by omega)) _ (Nat.mod_lt _ (by omega)) c9
  have e10 := digitChar_inj _ (Nat.mod_lt _ (by omega)) _ (Nat.mod_lt _ (by omega)) c10
  have e11 := digitChar_inj _ (Nat.mod_lt _ (by omega)) _ (Nat.mod_lt _ (by omega)) c11
  have e12 := digitChar_inj _ (Nat.mod_lt _ (by omega)) _ (Nat.mod_lt _ (by omega)) c12
  have e13 := digitChar_inj _ (Nat.mod_lt _ (by omega)) _ (Nat.mod_lt _ (by omega)) c13
  have e14 := digitChar_inj _ (Nat.mod_lt _ (by omega)) _ (Nat.mod_lt _ (by omega)) c14
  simp only [Tm.mk.injEq]
  refine ⟨by omega, by omega, by omega, by omega, by omega, by omega⟩

/-- Two pre-year-10000 instants rendered identically by
`time.strftime("%Y%m%d_%H%M%S")` are the same instant. -/
theorem now_time_str_inj (t1 t2 : Nat)
    (ht1 : t1 < 253234080000) (ht2 : t2 < 253234080000)
    (h : now_time_str t1 = now_time_str t2) : t1 = t2 := by
  refine localtime_inj t1 t2 (strftimeYmdHMS_inj _ _ ?_ ?_ h)
  · exact localtime_bounds t1 ht1
  · exact localtime_bounds t2 ht2

/-- The whole output filename determines the timestamp (same directory, label
and counter). -/
theorem mkFilename_inj (dir lab cnt : String) (t1 t2 : Nat)
    (ht1 : t1 < 253234080000) (ht2 : t2 < 253234080000)
    (h : mkFilename dir lab cnt t1 = mkFilename dir lab cnt t2) : t1 = t2 := by
  have hd := congrArg String.data h
  simp only [mkFilename, String.data_append, List.append_assoc] at hd
  have hd1 := List.append_cancel_left hd
  have hd2 := List.append_cancel_left hd1
  have hd3 := List.append_cancel_left hd2
  have hd4 := List.append_cancel_left hd3
  have hts : (now_time_str t1).data = (now_time_str t2).data :=
    List.append_cancel_right hd4
  exact now_time_str_inj t1 t2 ht1 ht2 (string_data_inj hts)

/-! ### Supporting lemmas: the preview loop -/

/-- If the exit condition first holds at iteration `j`, every read up to and
including iteration `j` succeeds, and the fuel covers iteration `j`, the loop
breaks at iteration `j` having performed `j + 1` reads. -/
theorem previewLoop_brk (env : PrevEnv) (timeout : Nat) :
    ∀ fuel i j, i ≤ j → exitCond env timeout j →
    (∀ k, i ≤ k → k < j → ¬ exitCond env timeout k) →
    (∀ k, i ≤ k → k ≤ j → (env.frames k).isSome) →
    j - i < fuel →
    previewLoop env timeout fuel i = .brk (j + 1) (j + 1) := by
  intro fuel
  induction fuel with
  | zero => intro i j _ _ _ _ hfuel; omega
  | succ fuel ih =>
      intro i j hij hexit hbefore hreads hfuel
      have hfi : (env.frames i).isSome := hreads i le_rfl hij
      obtain ⟨fr, hfr⟩ := Option.isSome_iff_exists.mp hfi
      by_cases heq : i = j
      · subst heq
        simp only [previewLoop, hfr, if_pos hexit]
      · have hlt : i < j := by omega
        have hnot : ¬ exitCond env timeout i := hbefore i le_rfl hlt
        simp only [previewLoop, hfr, if_neg hnot]
        exact ih (i + 1) j (by omega) hexit
          (fun k hk1 hk2 => hbefore k (by omega) hk2)
          (fun k hk1 hk2 => hreads k (by omega) hk2)
          (by omega)

/-- If the read first fails at iteration `j` and no earlier iteration met the
exit condition, the loop takes the fatal path at iteration `j` having
performed `j + 1` reads (the failing one included) and none after. -/
theorem previewLoop_fail (env : PrevEnv) (timeout : Nat) :
    ∀ fuel i j, i ≤ j → env.frames j = none →
    (∀ k, i ≤ k → k < j → ¬ exitCond env timeout k ∧ (env.frames k).isSome) →
    j - i < fuel →
    previewLoop env timeout fuel i = .fail (j + 1) (j + 1) := by
  intro fuel
  induction fuel with
  | zero => intro i j _ _ _ hfuel; omega
  | succ fuel ih =>
      intro i j hij hfail hbefore hfuel
      by_cases heq : i = j
      · subst heq
        simp only [previewLoop, hfail]
      · have hlt : i < j := by omega
        obtain ⟨hnot, hfi⟩ := hbefore i le_rfl hlt
        obtain ⟨fr, hfr⟩ := Option.isSome_iff_exists.mp hfi
        simp only [previewLoop, hfr, if_neg hnot]
        exact ih (i + 1) j (by omega) hfail
          (fun k hk1 hk2 => hbefore k (by omega) hk2) (by omega)

/-! ### Claims -/

theorem release_camera_idem (s : USBCamera) :
    release_camera (release_camera s) = release_camera s := by
  cases hs : s.camera <;> simp [release_camera, hs]

theorem tpBody_raised (env : CapEnv) (s1 : USBCamera) (p l c : String) (mark : Bool)
    (oa w0 e0 i0 : Nat) : (tpBody env s1 p l c mark oa w0 e0 i0).2.raised = none := by
  rcases hs : s1.camera with _ | h
  · simp [tpBody, hs]
  · rcases hr : env.read h with _ | fr <;> simp [tpBody, hs, hr]

theorem tpBody_openAttempts (env : CapEnv) (s1 : USBCamera) (p l c : String) (mark : Bool)
    (oa w0 e0 i0 : Nat) : (tpBody env s1 p l c mark oa w0 e0 i0).2.openAttempts = oa := by
  rcases hs : s1.camera with _ | h
  · simp [tpBody, hs]
  · rcases hr : env.read h with _ | fr <;> simp [tpBody, hs, hr]

/-- `take_picture` never lets an exception reach the caller. -/
theorem take_picture_raised (env : CapEnv) (s : USBCamera) (p l c : String)
    (mark : Bool) : (take_picture env s p l c mark).2.raised = none := by
  unfold take_picture
  split <;> apply tpBody_raised

/-- `take_picture` makes exactly one implicit open attempt when the session
is not ready, and none otherwise. -/
theorem take_picture_openAttempts (env : CapEnv) (s : USBCamera) (p l c : String)
    (mark : Bool) : (take_picture env s p l c mark).2.openAttempts =
      if cameraNotReady s then 1 else 0 := by
  unfold take_picture
  split <;> rename_i hc <;> simp [tpBody_openAttempts, hc]

/-- C1, counterexample.  The claim says that after release the handle is
cleared (`handle` non-null iff state `Open`).  On the code, releasing an open
session leaves `self.camera` set: `release_camera` never assigns
`self.camera = None`. -/
theorem C1_cex_release_keeps_handle :
    (release_camera
      { device_index := 0, frame_resolution := (1280, 720), frame_rate := 30
        camera := some { opened := true, width := 1280, height := 720, fps := 30 } }).camera
      ≠ none := by decide

/-- C1, amended.  Releasing a session with a handle marks the underlying
handle unopened but keeps `self.camera` set; there is no session-state field
and no `SessionClosed` error: an operation attempted after release does not
fail with a session error — `take_picture` sees a not-ready camera, makes one
implicit re-open attempt, and raises nothing. -/
theorem C1_released_session_behaviour (s : USBCamera) (h : CamHandle)
    (hs : s.camera = some h) (env : CapEnv) (p l c : String) (mark : Bool) :
    (release_camera s).camera = some { h with opened := false } ∧
    cameraNotReady (release_camera s) = true ∧
    (take_picture env (release_camera s) p l c mark).2.openAttempts = 1 ∧
    (take_picture env (release_camera s) p l c mark).2.raised = none := by
  have hrel : release_camera s = { s with camera := some { h with opened := false } } := by
    simp [release_camera, hs]
  have hready : cameraNotReady (release_camera s) = true := by
    simp [hrel, cameraNotReady]
  refine ⟨by rw [hrel], hready, ?_, take_picture_raised _ _ _ _ _ _⟩
  rw [take_picture_openAttempts, hready]
  rfl

/-- C1 witness: a concrete released session behaves as the amended claim
says. -/
theorem C1_released_session_behaviour_witness :
    (release_camera
        { device_index := 0, frame_resolution := (1280, 720), frame_rate := 30
          camera := some { opened := true, width := 1280, height := 720, fps := 30 } }).camera =
      some { opened := false, width := 1280, height := 720, fps := 30 } ∧
    cameraNotReady (release_camera
        { device_index := 0, frame_resolution := (1280, 720), frame_rate := 30
          camera := some { opened := true, width := 1280, height := 720, fps := 30 } }) = true ∧
    (take_picture
        { openEnv := { acquire := none, reopen := fun h => h, negotiate := fun h _ _ => h }
          read := fun _ => none, now := 0 }
        (release_camera
          { device_index := 0, frame_resolution := (1280, 720), frame_rate := 30
            camera := some { opened := true, width := 1280, height := 720, fps := 30 } })
        "d" "t" "1" false).2.openAttempts = 1 ∧
    (take_picture
        { openEnv := { acquire := none, reopen := fun h => h, negotiate := fun h _ _ => h }
          read := fun _ => none, now := 0 }
        (release_camera
          { device_index := 0, frame_resolution := (1280, 720), frame_rate := 30
            camera := some { opened := true, width := 1280, height := 720, fps := 30 } })
        "d" "t" "1" false).2.raised = none :=
  C1_released_session_behaviour
    { device_index := 0, frame_resolution := (1280, 720), frame_rate := 30
      camera := some { opened := true, width := 1280, height := 720, fps := 30 } }
    { opened := true, width := 1280, height := 720, fps := 30 } rfl
    { openEnv := { acquire := none, reopen := fun h => h, negotiate := fun h _ _ => h }
      read := fun _ => none, now := 0 }
    "d" "t" "1" false

/-- C2.  `release_camera` is a no-op when the handle is absent, releasing is
idempotent, and the whole `open; release; release` sequence — with the second
release equally reachable through `__del__` — returns normally (the model is
total and none of these paths can raise). -/
theorem C2_release_idempotent (s : USBCamera) (env : OpenEnv) :
    (∀ s', s'.camera = none → release_camera s' = s') ∧
    release_camera (release_camera (open_camera env s).1) =
      release_camera (open_camera env s).1 ∧
    del_camera (release_camera (open_camera env s).1) =
      release_camera (open_camera env s).1 := by
  refine ⟨fun s' hs' => by simp [release_camera, hs'], ?_, ?_⟩ <;>
    simpa [del_camera] using release_camera_idem (open_camera env s).1

/-- C2 witness: the no-op case and the concrete double release. -/
theorem C2_release_idempotent_witness :
    release_camera (USBCamera.init 0 (1280, 720) 15) = USBCamera.init 0 (1280, 720) 15 ∧
    release_camera (release_camera
        (open_camera
          { acquire := some { opened := true, width := 1280, height := 720, fps := 15 }
            reopen := fun h => h, negotiate := fun h _ _ => h }
          (USBCamera.init 0 (1280, 720) 15)).1) =
      release_camera
        (open_camera
          { acquire := some { opened := true, width := 1280, height := 720, fps := 15 }
            reopen := fun h => h, negotiate := fun h _ _ => h }
          (USBCamera.init 0 (1280, 720) 15)).1 :=
  ⟨(C2_release_idempotent (USBCamera.init 0 (1280, 720) 15)
      { acquire := some { opened := true, width := 1280, height := 720, fps := 15 }
        reopen := fun h => h, negotiate := fun h _ _ => h }).1
    (USBCamera.init 0 (1280, 720) 15) rfl,
   (C2_release_idempotent (USBCamera.init 0 (1280, 720) 15)
      { acquire := some { opened := true, width := 1280, height := 720, fps := 15 }
        reopen := fun h => h, negotiate := fun h _ _ => h }).2.1⟩

/-- C3, counterexample.  The claim says a failed implicit open is propagated
to the caller.  On the code it is not: with the device constructor raising,
`take_picture` on a never-opened session makes its one implicit open attempt,
writes nothing — and returns normally (`raised = none`), the failure ending up
only in the log (the open error plus the caught `AttributeError`). -/
theorem C3_cex_open_failure_not_propagated :
    (take_picture
        { openEnv := { acquire := none, reopen := fun h => h, negotiate := fun h _ _ => h }
          read := fun _ => none, now := 0 }
        (USBCamera.init 0 (1280, 720) 30) "d" "t" "1" false).2.openAttempts = 1 ∧
    (take_picture
        { openEnv := { acquire := none, reopen := fun h => h, negotiate := fun h _ _ => h }
          read := fun _ => none, now := 0 }
        (USBCamera.init 0 (1280, 720) 30) "d" "t" "1" false).2.files = [] ∧
    (take_picture
        { openEnv := { acquire := none, reopen := fun h => h, negotiate := fun h _ _ => h }
          read := fun _ => none, now := 0 }
        (USBCamera.init 0 (1280, 720) 30) "d" "t" "1" false).2.raised = none := by
  decide

/-- C3, amended.  A capture call on a not-Open session makes exactly one
implicit open attempt before any read, and never raises; if the implicit open
fails by exception on a never-opened session, no output file is written, no
read happens, and the failure is only logged (open error plus the caught
`AttributeError`), not propagated. -/
theorem C3_implicit_open_once_failure_logged (env : CapEnv) (s : USBCamera)
    (p l c : String) (mark : Bool) (hno : cameraNotReady s = true) :
    (take_picture env s p l c mark).2.openAttempts = 1 ∧
    (take_picture env s p l c mark).2.raised = none ∧
    (env.openEnv.acquire = none → s.camera = none →
      (take_picture env s p l c mark).2.files = [] ∧
      (take_picture env s p l c mark).2.markWrites = [] ∧
      (take_picture env s p l c mark).2.reads = 0 ∧
      (take_picture env s p l c mark).2.errorsLogged = 2) := by
  refine ⟨?_, take_picture_raised _ _ _ _ _ _, ?_⟩
  · rw [take_picture_openAttempts, hno]
    rfl
  · intro hacq hcam
    simp [take_picture, hno, open_camera, hacq, tpBody, hcam]

/-- C3 witness: the amended behaviour at a concrete failing open. -/
theorem C3_implicit_open_once_failure_logged_witness :
    (take_picture
        { openEnv := { acquire := none, reopen := fun h => h, negotiate := fun h _ _ => h }
          read := fun _ => none, now := 5 }
        (USBCamera.init 1 (640, 480) 30) "p" "cap" "2" true).2.openAttempts = 1 ∧
    (take_picture
        { openEnv := { acquire := none, reopen := fun h => h, negotiate := fun h _ _ => h }
          read := fun _ => none, now := 5 }
        (USBCamera.init 1 (640, 480) 30) "p" "cap" "2" true).2.raised = none ∧
    (take_picture
        { openEnv := { acquire := none, reopen := fun h => h, negotiate := fun h _ _ => h }
          read := fun _ => none, now := 5 }
        (USBCamera.init 1 (640, 480) 30) "p" "cap" "2" true).2.files = [] ∧
    (take_picture
        { openEnv := { acquire := none, reopen := fun h => h, negotiate := fun h _ _ => h }
          read := fun _ => none, now := 5 }
        (USBCamera.init 1 (640, 480) 30) "p" "cap" "2" true).2.reads = 0 := by
  obtain ⟨h1, h2, h3⟩ := C3_implicit_open_once_failure_logged
    { openEnv := { acquire := none, reopen := fun h => h, negotiate := fun h _ _ => h }
      read := fun _ => none, now := 5 }
    (USBCamera.init 1 (640, 480) 30) "p" "cap" "2" true rfl
  obtain ⟨f1, _, f3, _⟩ := h3 rfl rfl
  exact ⟨h1, h2, f1, f3⟩

/-- C4.  A read failure during capture on an Open session is recoverable:
warning logged, zero files written, session state (handle included) unchanged
and still Open, nothing raised, and an immediately following capture call
still performs its read. -/
theorem C4_capture_read_failure_recoverable (env env2 : CapEnv) (s : USBCamera)
    (h : CamHandle) (hs : s.camera = some h) (hop : h.opened = true)
    (hread : env.read h = none) (p l c p2 l2 c2 : String) (mark mark2 : Bool) :
    (take_picture env s p l c mark).1 = s ∧
    (take_picture env s p l c mark).2.files = [] ∧
    (take_picture env s p l c mark).2.markWrites = [] ∧
    (take_picture env s p l c mark).2.warnings = 1 ∧
    (take_picture env s p l c mark).2.raised = none ∧
    (take_picture env2 (take_picture env s p l c mark).1 p2 l2 c2 mark2).2.reads = 1 := by
  have hnr : cameraNotReady s = false := by
    simp [cameraNotReady, hs, hop]
  have hfst : (take_picture env s p l c mark).1 = s := by
    simp [take_picture, hnr, tpBody, hs, hread]
  refine ⟨hfst, ?_, ?_, ?_, take_picture_raised _ _ _ _ _ _, ?_⟩
  · simp [take_picture, hnr, tpBody, hs, hread]
  · simp [take_picture, hnr, tpBody, hs, hread]
  · simp [take_picture, hnr, tpBody, hs, hread]
  · rw [hfst]
    rcases hr2 : env2.read h with _ | fr <;>
      simp [take_picture, hnr, tpBody, hs, hr2]

/-- C4 witness: a concrete failed read leaves a concrete session intact. -/
theorem C4_capture_read_failure_recoverable_witness :
    (take_picture
        { openEnv := { acquire := none, reopen := fun h => h, negotiate := fun h _ _ => h }
          read := fun _ => none, now := 9 }
        { device_index := 0, frame_resolution := (1280, 720), frame_rate := 15
          camera := some { opened := true, width := 1280, height := 720, fps := 15 } }
        "d" "t" "1" false).1 =
      { device_index := 0, frame_resolution := (1280, 720), frame_rate := 15
        camera := some { opened := true, width := 1280, height := 720, fps := 15 } } ∧
    (take_picture
        { openEnv := { acquire := none, reopen := fun h => h, negotiate := fun h _ _ => h }
          read := fun _ => none, now := 9 }
        { device_index := 0, frame_resolution := (1280, 720), frame_rate := 15
          camera := some { opened := true, width := 1280, height := 720, fps := 15 } }
        "d" "t" "1" false).2.files = [] ∧
    (take_picture
        { openEnv := { acquire := none, reopen := fun h => h, negotiate := fun h _ _ => h }
          read := fun _ => none, now := 9 }
        (take_picture
          { openEnv := { acquire := none, reopen := fun h => h, negotiate := fun h _ _ => h }
            read := fun _ => none, now := 9 }
          { device_index := 0, frame_resolution := (1280, 720), frame_rate := 15
            camera := some { opened := true, width := 1280, height := 720, fps := 15 } }
          "d" "t" "1" false).1 "d" "t" "2" false).2.reads = 1 := by
  obtain ⟨h1, h2, _, _, _, h6⟩ := C4_capture_read_failure_recoverable
    { openEnv := { acquire := none, reopen := fun h => h, negotiate := fun h _ _ => h }
      read := fun _ => none, now := 9 }
    { openEnv := { acquire := none, reopen := fun h => h, negotiate := fun h _ _ => h }
      read := fun _ => none, now := 9 }
    { device_index := 0, frame_resolution := (1280, 720), frame_rate := 15
      camera := some { opened := true, width := 1280, height := 720, fps := 15 } }
    { opened := true, width := 1280, height := 720, fps := 15 }
    rfl rfl rfl "d" "t" "1" "d" "t" "2" false false
  exact ⟨h1, h2, h6⟩

/-- C5.  When the read at preview iteration `j` fails (and the loop reached
`j`: no earlier exit, all earlier reads succeeded), the operation is fatal:
the handle is released, `sys.exit(1)` escapes, exactly `j + 1` reads were
made (none after the failing one), and the window cleanup at line 152 is
skipped. -/
theorem C5_preview_read_failure_fatal (env : PrevEnv) (s : USBCamera)
    (h : CamHandle) (hs : s.camera = some h) (timeout fuel j : Nat)
    (hfail : env.frames j = none)
    (hbefore : ∀ k, k < j → ¬ exitCond env timeout k ∧ (env.frames k).isSome)
    (hfuel : j < fuel) :
    (show_live_camera env s timeout fuel).2.raised = some (.systemExit 1) ∧
    (show_live_camera env s timeout fuel).2.camReleased = true ∧
    (show_live_camera env s timeout fuel).2.reads = j + 1 ∧
    (show_live_camera env s timeout fuel).2.windowsDestroyed = false ∧
    (show_live_camera env s timeout fuel).1.camera = some { h with opened := false } := by
  have hloop := previewLoop_fail env timeout fuel 0 j (Nat.zero_le j) hfail
    (fun k _ hk2 => hbefore k hk2) (by omega)
  simp [show_live_camera, hs, hloop]

/-- C5 witness: a concrete preview whose third read fails. -/
theorem C5_preview_read_failure_fatal_witness :
    (show_live_camera
        { elapsed := fun i => i, frames := fun i => if i < 2 then some 0 else none
          keys := fun _ => none }
        { device_index := 0, frame_resolution := (1280, 720), frame_rate := 15
          camera := some { opened := true, width := 1280, height := 720, fps := 15 } }
        60 10).2.raised = some (.systemExit 1) ∧
    (show_live_camera
        { elapsed := fun i => i, frames := fun i => if i < 2 then some 0 else none
          keys := fun _ => none }
        { device_index := 0, frame_resolution := (1280, 720), frame_rate := 15
          camera := some { opened := true, width := 1280, height := 720, fps := 15 } }
        60 10).2.camReleased = true ∧
    (show_live_camera
        { elapsed := fun i => i, frames := fun i => if i < 2 then some 0 else none
          keys := fun _ => none }
        { device_index := 0, frame_resolution := (1280, 720), frame_rate := 15
          camera := some { opened := true, width := 1280, height := 720, fps := 15 } }
        60 10).2.reads = 3 := by
  obtain ⟨h1, h2, h3, _⟩ := C5_preview_read_failure_fatal
    { elapsed := fun i => i, frames := fun i => if i < 2 then some 0 else none
      keys := fun _ => none }
    { device_index := 0, frame_resolution := (1280, 720), frame_rate := 15
      camera := some { opened := true, width := 1280, height := 720, fps := 15 } }
    { opened := true, width := 1280, height := 720, fps := 15 } rfl
    60 10 2 (by decide) (by decide) (by decide)
  exact ⟨h1, h2, h3⟩

/-- C6.  The preview loop exits at the first iteration `j` whose poll sees
the cancel key or whose elapsed time exceeds the timeout — whichever comes
first — after exactly `j + 1` iterations (so one poll tick when the key is
pressed at the first iteration), the display windows are destroyed on this
exit path regardless of which condition fired, and nothing is raised. -/
theorem C6_preview_exits_at_first_condition (env : PrevEnv) (s : USBCamera)
    (h : CamHandle) (hs : s.camera = some h) (timeout fuel j : Nat)
    (hexit : exitCond env timeout j)
    (hbefore : ∀ k, k < j → ¬ exitCond env timeout k)
    (hreads : ∀ k, k ≤ j → (env.frames k).isSome)
    (hfuel : j < fuel) :
    (show_live_camera env s timeout fuel).2.iterations = j + 1 ∧
    (show_live_camera env s timeout fuel).2.windowsDestroyed = true ∧
    (show_live_camera env s timeout fuel).2.raised = none ∧
    (show_live_camera env s timeout fuel).1 = s := by
  have hloop := previewLoop_brk env timeout fuel 0 j (Nat.zero_le j) hexit
    (fun k _ hk2 => hbefore k hk2) (fun k _ hk2 => hreads k hk2) (by omega)
  simp [show_live_camera, hs, hloop]

/-- C6 witness: cancel key pressed at the very first iteration ends the
preview after one iteration with the windows destroyed. -/
theorem C6_preview_exits_at_first_condition_witness :
    (show_live_camera
        { elapsed := fun _ => 0, frames := fun _ => some 0
          keys := fun _ => some 113 }
        { device_index := 0, frame_resolution := (1280, 720), frame_rate := 15
          camera := some { opened := true, width := 1280, height := 720, fps := 15 } }
        60 10).2.iterations = 1 ∧
    (show_live_camera
        { elapsed := fun _ => 0, frames := fun _ => some 0
          keys := fun _ => some 113 }
        { device_index := 0, frame_resolution := (1280, 720), frame_rate := 15
          camera := some { opened := true, width := 1280, height := 720, fps := 15 } }
        60 10).2.windowsDestroyed = true := by
  obtain ⟨h1, h2, _⟩ := C6_preview_exits_at_first_condition
    { elapsed := fun _ => 0, frames := fun _ => some 0, keys := fun _ => some 113 }
    { device_index := 0, frame_resolution := (1280, 720), frame_rate := 15
      camera := some { opened := true, width := 1280, height := 720, fps := 15 } }
    { opened := true, width := 1280, height := 720, fps := 15 } rfl
    60 10 0 (by decide) (by decide) (by decide) (by decide)
  exact ⟨h1, h2⟩

/-- C7, counterexample.  The claim says an unacquirable handle makes open
fail with a reported `DeviceOpenFailed` and that no automatic retry happens.
On the code, when `cv2.VideoCapture` returns an unopened handle (the common
missing/busy-device outcome), `open_camera` silently makes a second
acquisition attempt through `self.camera.open(...)` (line 97), logs the
success-style info message, reports no error, and raises nothing. -/
theorem C7_cex_silent_retry_on_unopened_handle :
    (open_camera
        { acquire := some { opened := false, width := 0, height := 0, fps := 0 }
          reopen := fun h => h, negotiate := fun h _ _ => h }
        (USBCamera.init 0 (1280, 720) 30)).2.acquireAttempts = 2 ∧
    (open_camera
        { acquire := some { opened := false, width := 0, height := 0, fps := 0 }
          reopen := fun h => h, negotiate := fun h _ _ => h }
        (USBCamera.init 0 (1280, 720) 30)).2.errorsLogged = 0 ∧
    (open_camera
        { acquire := some { opened := false, width := 0, height := 0, fps := 0 }
          reopen := fun h => h, negotiate := fun h _ _ => h }
        (USBCamera.init 0 (1280, 720) 30)).2.raised = none := by
  decide

/-- C7, amended.  When handle acquisition raises, `open_camera` logs one
error and returns normally with the state unchanged — the failure is reported
to the log, never to the caller, and no retry is made; when acquisition
returns an unopened handle, `open_camera` makes exactly one automatic retry
through `camera.open`, reports no failure at all, and still logs the
success-style info message. -/
theorem C7_open_failure_swallowed_or_retried (env : OpenEnv) (s : USBCamera) :
    (env.acquire = none →
      (open_camera env s).1 = s ∧
      (open_camera env s).2.acquireAttempts = 1 ∧
      (open_camera env s).2.errorsLogged = 1 ∧
      (open_camera env s).2.raised = none) ∧
    (∀ h0, env.acquire = some h0 → h0.opened = false →
      (open_camera env s).2.acquireAttempts = 2 ∧
      (open_camera env s).2.errorsLogged = 0 ∧
      (open_camera env s).2.infoLogged = 1 ∧
      (open_camera env s).2.raised = none) := by
  constructor
  · intro hacq
    simp [open_camera, hacq]
  · intro h0 hacq hop
    simp [open_camera, hacq, hop]

/-- C7 witness: the two failure modes at concrete environments. -/
theorem C7_open_failure_swallowed_or_retried_witness :
    (open_camera
        { acquire := none, reopen := fun h => h, negotiate := fun h _ _ => h }
        (USBCamera.init 0 (1280, 720) 30)).2.errorsLogged = 1 ∧
    (open_camera
        { acquire := none, reopen := fun h => h, negotiate := fun h _ _ => h }
        (USBCamera.init 0 (1280, 720) 30)).2.raised = none ∧
    (open_camera
        { acquire := some { opened := false, width := 4, height := 4, fps := 4 }
          reopen := fun h => { h with opened := true }, negotiate := fun h _ _ => h }
        (USBCamera.init 0 (1280, 720) 30)).2.acquireAttempts = 2 := by
  obtain ⟨e1, _⟩ := C7_open_failure_swallowed_or_retried
    { acquire := none, reopen := fun h => h, negotiate := fun h _ _ => h }
    (USBCamera.init 0 (1280, 720) 30)
  obtain ⟨_, _, he, hr⟩ := e1 rfl
  obtain ⟨_, e2⟩ := C7_open_failure_swallowed_or_retried
    { acquire := some { opened := false, width := 4, height := 4, fps := 4 }
      reopen := fun h => { h with opened := true }, negotiate := fun h _ _ => h }
    (USBCamera.init 0 (1280, 720) 30)
  obtain ⟨ha, _⟩ := e2 { opened := false, width := 4, height := 4, fps := 4 } rfl rfl
  exact ⟨he, hr, ha⟩

/-- C8.  A successful capture writes exactly one file,
`<save_path>/<label>_<strftime("%Y%m%d_%H%M%S")>_<count>.jpg`, with JPEG
quality 95; and because the embedded timestamp has seconds resolution, two
captures with the same directory, label and counter whose clock readings are
at least one second apart (both before year 10000, where the four-digit year
field of the format is well-defined) get distinct filenames. -/
theorem C8_capture_filename_and_uniqueness (env : CapEnv) (s : USBCamera)
    (h : CamHandle) (fr : Frame) (hs : s.camera = some h) (hop : h.opened = true)
    (hread : env.read h = some fr) (p l c : String) (mark : Bool) :
    (take_picture env s p l c mark).2.files = [(mkFilename p l c env.now, 95)] ∧
    (∀ t1 t2 : Nat, t1 < 253234080000 → t2 < 253234080000 → t1 + 1 ≤ t2 →
      mkFilename p l c t1 ≠ mkFilename p l c t2) := by
  constructor
  · have hnr : cameraNotReady s = false := by
      simp [cameraNotReady, hs, hop]
    simp [take_picture, hnr, tpBody, hs, hread]
  · intro t1 t2 h1 h2 hlt heq
    have := mkFilename_inj p l c t1 t2 h1 h2 heq
    omega

/-- C8 witness: a concrete successful capture at clock reading 0 produces the
expected file at quality 95, and the same label/counter one second later gets
a different name. -/
theorem C8_capture_filename_and_uniqueness_witness :
    (take_picture
        { openEnv := { acquire := none, reopen := fun h => h, negotiate := fun h _ _ => h }
          read := fun _ => some 7, now := 0 }
        { device_index := 0, frame_resolution := (1280, 720), frame_rate := 15
          camera := some { opened := true, width := 1280, height := 720, fps := 15 } }
        "d" "smoke" "1" false).2.files = [(mkFilename "d" "smoke" "1" 0, 95)] ∧
    mkFilename "d" "smoke" "1" 0 ≠ mkFilename "d" "smoke" "1" 1 := by
  obtain ⟨h1, h2⟩ := C8_capture_filename_and_uniqueness
    { openEnv := { acquire := none, reopen := fun h => h, negotiate := fun h _ _ => h }
      read := fun _ => some 7, now := 0 }
    { device_index := 0, frame_resolution := (1280, 720), frame_rate := 15
      camera := some { opened := true, width := 1280, height := 720, fps := 15 } }
    { opened := true, width := 1280, height := 720, fps := 15 } 7
    rfl rfl rfl "d" "smoke" "1" false
  exact ⟨h1, h2 0 1 (by decide) (by decide) (by decide)⟩

/-- C9.  When the device substitutes its own effective values at open time,
the session does not fail (open returns normally, no error logged, handle
set), and the camera info that `show_live_camera` prints and renders into the
overlay text is re-read from the device — it equals the negotiated effective
values and, whenever these differ from the request, it differs from the
originally requested values. -/
theorem C9_reports_negotiated_values (oenv : OpenEnv) (penv : PrevEnv)
    (s : USBCamera) (h0 h1 : CamHandle) (hacq : oenv.acquire = some h0)
    (hop : h0.opened = true)
    (hneg : oenv.negotiate h0 s.frame_resolution s.frame_rate = h1)
    (timeout fuel : Nat) :
    (open_camera oenv s).1.camera = some h1 ∧
    (open_camera oenv s).2.errorsLogged = 0 ∧
    (open_camera oenv s).2.raised = none ∧
    (show_live_camera penv (open_camera oenv s).1 timeout fuel).2.actualInfo =
      some (h1.width, h1.height, h1.fps) ∧
    ((h1.width, h1.height, h1.fps) ≠
        (s.frame_resolution.1, s.frame_resolution.2, s.frame_rate) →
      (show_live_camera penv (open_camera oenv s).1 timeout fuel).2.actualInfo ≠
        some (s.frame_resolution.1, s.frame_resolution.2, s.frame_rate)) := by
  have hopen : (open_camera oenv s).1.camera = some h1 := by
    simp [open_camera, hacq, hop, hneg]
  have hinfo : (show_live_camera penv (open_camera oenv s).1 timeout fuel).2.actualInfo =
      some (h1.width, h1.height, h1.fps) := by
    cases hl : previewLoop penv timeout fuel 0 <;>
      simp [show_live_camera, hopen, hl]
  refine ⟨hopen, ?_, ?_, hinfo, ?_⟩
  · simp [open_camera, hacq, hop]
  · simp [open_camera, hacq, hop]
  · intro hne heq
    rw [hinfo] at heq
    exact hne (Option.some.inj heq)

/-- C9 witness: a mock device that negotiates 640x480@10 against a request of
1280x720@30; the preview reports the negotiated values, not the request. -/
theorem C9_reports_negotiated_values_witness :
    (show_live_camera
        { elapsed := fun _ => 0, frames := fun _ => some 0, keys := fun _ => some 113 }
        (open_camera
          { acquire := some { opened := true, width := 1280, height := 720, fps := 30 }
            reopen := fun h => h
            negotiate := fun _ _ _ => { opened := true, width := 640, height := 480, fps := 10 } }
          (USBCamera.init 0 (1280, 720) 30)).1 60 10).2.actualInfo =
      some (640, 480, 10) ∧
    (show_live_camera
        { elapsed := fun _ => 0, frames := fun _ => some 0, keys := fun _ => some 113 }
        (open_camera
          { acquire := some { opened := true, width := 1280, height := 720, fps := 30 }
            reopen := fun h => h
            negotiate := fun _ _ _ => { opened := true, width := 640, height := 480, fps := 10 } }
          (USBCamera.init 0 (1280, 720) 30)).1 60 10).2.actualInfo ≠
      some (1280, 720, 30) := by
  obtain ⟨_, _, _, h4, h5⟩ := C9_reports_negotiated_values
    { acquire := some { opened := true, width := 1280, height := 720, fps := 30 }
      reopen := fun h => h
      negotiate := fun _ _ _ => { opened := true, width := 640, height := 480, fps := 10 } }
    { elapsed := fun _ => 0, frames := fun _ => some 0, keys := fun _ => some 113 }
    (USBCamera.init 0 (1280, 720) 30)
    { opened := true, width := 1280, height := 720, fps := 30 }
    { opened := true, width := 640, height := 480, fps := 10 }
    rfl rfl rfl 60 10
  exact ⟨h4, h5 (by decide)⟩

/-- C10.  Calling `show_live_camera` on a session that has never been opened
(`self.camera = None`) raises an unhandled `AttributeError` at the first
`self.camera.get(...)` — before any read and without producing the camera
info — instead of a session error or an implicit open; `take_picture` on the
same session, by contrast, checks the precondition, makes one implicit open
attempt, and raises nothing. -/
theorem C10_preview_unopened_raises (penv : PrevEnv) (cenv : CapEnv)
    (s : USBCamera) (hs : s.camera = none) (timeout fuel : Nat)
    (p l c : String) (mark : Bool) :
    (show_live_camera penv s timeout fuel).2.raised = some .attributeError ∧
    (show_live_camera penv s timeout fuel).2.reads = 0 ∧
    (show_live_camera penv s timeout fuel).2.actualInfo = none ∧
    (take_picture cenv s p l c mark).2.openAttempts = 1 ∧
    (take_picture cenv s p l c mark).2.raised = none := by
  have hnr : cameraNotReady s = true := by
    simp [cameraNotReady, hs]
  refine ⟨?_, ?_, ?_, ?_, take_picture_raised _ _ _ _ _ _⟩
  · simp [show_live_camera, hs]
  · simp [show_live_camera, hs]
  · simp [show_live_camera, hs]
  · rw [take_picture_openAttempts, hnr]
    rfl

/-- C10 witness: a freshly constructed session previewed before any open. -/
theorem C10_preview_unopened_raises_witness :
    (show_live_camera
        { elapsed := fun _ => 0, frames := fun _ => some 0, keys := fun _ => none }
        (USBCamera.init 0 (1280, 720) 30) 60 10).2.raised = some .attributeError ∧
    (show_live_camera
        { elapsed := fun _ => 0, frames := fun _ => some 0, keys := fun _ => none }
        (USBCamera.init 0 (1280, 720) 30) 60 10).2.reads = 0 ∧
    (take_picture
        { openEnv := { acquire := none, reopen := fun h => h, negotiate := fun h _ _ => h }
          read := fun _ => none, now := 0 }
        (USBCamera.init 0 (1280, 720) 30) "d" "t" "1" false).2.openAttempts = 1 := by
  obtain ⟨h1, h2, _, h4, _⟩ := C10_preview_unopened_raises
    { elapsed := fun _ => 0, frames := fun _ => some 0, keys := fun _ => none }
    { openEnv := { acquire := none, reopen := fun h => h, negotiate := fun h _ _ => h }
      read := fun _ => none, now := 0 }
    (USBCamera.init 0 (1280, 720) 30) rfl 60 10 "d" "t" "1" false
  exact ⟨h1, h2, h4⟩

/-! ### Sanity checks of the clock model against known instants -/

example : localtime 0 = ⟨1970, 1, 1, 0, 0, 0⟩ := by decide

example : localtime 86399 = ⟨1970, 1, 1, 23, 59, 59⟩ := by decide

example : localtime 951782400 = ⟨2000, 2, 29, 0, 0, 0⟩ := by decide

example : localtime 1760227261 = ⟨2025, 10, 12, 0, 1, 1⟩ := by decide

example : now_time_str 1760227261 = "20251012_000101" := by decide

example : mkFilename "Pictures/20251012_000000" "smoke" "1" 1760227261 =
    "Pictures/20251012_000000/smoke_20251012_000101_1.jpg" := by decide
